import Mathlib

/-!
Verification of the ARGO ingestion subsystem (backend/src/data/ingestion).

Shallow embedding conventions:
- Python floats are modelled as rationals; a NaN (or absent) entry of a
  per-level numpy array is `none` in `Option ℚ`, a finite entry is `some v`.
- Timestamps (`datetime`) are modelled as rationals with the usual order;
  nanosecond-resolution timestamps (pandas) are modelled as integers.
- Per-profile arrays are `Option (List (Option ℚ))` (the whole variable may be
  absent from the file) with companion quality-flag lists `Option (List String)`.
- Database tables are lists of row records; fallible operations return
  `Except String`.
-/

namespace ArgoIngestion

/-- `parsers.ArgoProfile`: one decoded profile (dataclass). -/
structure ParsedProfile where
  floatId : String
  cycleNumber : ℤ
  profileId : String
  dataMode : String
  latitude : ℚ
  longitude : ℚ
  dateTime : ℚ
  platformNumber : Option String := none
  projectName : Option String := none
  piName : Option String := none
  pressure : Option (List (Option ℚ)) := none
  pressureQc : Option (List String) := none
  temperature : Option (List (Option ℚ)) := none
  temperatureQc : Option (List String) := none
  temperatureAdjusted : Option (List (Option ℚ)) := none
  temperatureAdjustedQc : Option (List String) := none
  salinity : Option (List (Option ℚ)) := none
  salinityQc : Option (List String) := none
  salinityAdjusted : Option (List (Option ℚ)) := none
  salinityAdjustedQc : Option (List String) := none
  oxygen : Option (List (Option ℚ)) := none
  oxygenQc : Option (List String) := none
  chlorophyll : Option (List (Option ℚ)) := none
  chlorophyllQc : Option (List String) := none
  positionQc : Option String := none
  dateQc : Option String := none
deriving DecidableEq

/-- `db.models.ArgoMeasurement` as the mapper builds it (attribute view).
A field that the mapper never assigned stays `none` (SQL NULL). -/
structure Measurement where
  profileId : String
  pressure : Option ℚ := none
  depth : Option ℚ := none
  pressureQc : Option String := none
  temperature : Option ℚ := none
  temperatureQc : Option String := none
  temperatureAdjusted : Option ℚ := none
  temperatureAdjustedQc : Option String := none
  salinity : Option ℚ := none
  salinityQc : Option String := none
  salinityAdjusted : Option ℚ := none
  salinityAdjustedQc : Option String := none
  oxygen : Option ℚ := none
  oxygenQc : Option String := none
  chlorophyllA : Option ℚ := none
  chlorophyllAQc : Option String := none
deriving DecidableEq

/-- `mappers.ArgoDataMapper._pressure_to_depth`: depth = pressure / 1.025. -/
def pressureToDepth (pressure : ℚ) : ℚ :=
  pressure / (1025 / 1000)

/-- Value of a per-level array at index `i`: `none` when the array is absent,
the index is out of range, or the entry is NaN (`profile.x is not None and
level_idx < len(profile.x) and not np.isnan(profile.x[level_idx])`). -/
def levelVal (arr : Option (List (Option ℚ))) (i : ℕ) : Option ℚ :=
  match arr with
  | none => none
  | some a => (a[i]?).join

/-- Quality-flag entry at index `i`: `none` when the array is absent or the
index is out of range (`profile.x_qc is not None and level_idx < len(...)`). -/
def levelQc (qc : Option (List String)) (i : ℕ) : Option String :=
  match qc with
  | none => none
  | some qs => qs[i]?

/-- `mappers.ArgoDataMapper._add_temperature_data`: assign raw and adjusted
temperature (with flags) when the level value is finite, else leave as is. -/
def addTemperatureData (p : ParsedProfile) (i : ℕ) (m : Measurement) : Measurement :=
  { m with
    temperature :=
      match levelVal p.temperature i with
      | some v => some v
      | none => m.temperature
    temperatureQc :=
      match levelVal p.temperature i with
      | some _ =>
        match levelQc p.temperatureQc i with
        | some q => some q
        | none => m.temperatureQc
      | none => m.temperatureQc
    temperatureAdjusted :=
      match levelVal p.temperatureAdjusted i with
      | some v => some v
      | none => m.temperatureAdjusted
    temperatureAdjustedQc :=
      match levelVal p.temperatureAdjusted i with
      | some _ =>
        match levelQc p.temperatureAdjustedQc i with
        | some q => some q
        | none => m.temperatureAdjustedQc
      | none => m.temperatureAdjustedQc }

/-- `mappers.ArgoDataMapper._add_salinity_data`. -/
def addSalinityData (p : ParsedProfile) (i : ℕ) (m : Measurement) : Measurement :=
  { m with
    salinity :=
      match levelVal p.salinity i with
      | some v => some v
      | none => m.salinity
    salinityQc :=
      match levelVal p.salinity i with
      | some _ =>
        match levelQc p.salinityQc i with
        | some q => some q
        | none => m.salinityQc
      | none => m.salinityQc
    salinityAdjusted :=
      match levelVal p.salinityAdjusted i with
      | some v => some v
      | none => m.salinityAdjusted
    salinityAdjustedQc :=
      match levelVal p.salinityAdjusted i with
      | some _ =>
        match levelQc p.salinityAdjustedQc i with
        | some q => some q
        | none => m.salinityAdjustedQc
      | none => m.salinityAdjustedQc }

/-- `mappers.ArgoDataMapper._add_optional_measurements`: oxygen and
chlorophyll (no adjusted variants exist for them in the mapper). -/
def addOptionalMeasurements (p : ParsedProfile) (i : ℕ) (m : Measurement) : Measurement :=
  { m with
    oxygen :=
      match levelVal p.oxygen i with
      | some v => some v
      | none => m.oxygen
    oxygenQc :=
      match levelVal p.oxygen i with
      | some _ =>
        match levelQc p.oxygenQc i with
        | some q => some q
        | none => m.oxygenQc
      | none => m.oxygenQc
    chlorophyllA :=
      match levelVal p.chlorophyll i with
      | some v => some v
      | none => m.chlorophyllA
    chlorophyllAQc :=
      match levelVal p.chlorophyll i with
      | some _ =>
        match levelQc p.chlorophyllQc i with
        | some q => some q
        | none => m.chlorophyllAQc
      | none => m.chlorophyllAQc }

/-- `mappers.ArgoDataMapper._has_valid_data`: pressure plus at least one of
temperature (raw or adjusted), salinity (raw or adjusted), oxygen,
chlorophyll. -/
def hasValidData (m : Measurement) : Bool :=
  match m.pressure with
  | none => false
  | some _ =>
    (m.temperature.isSome || m.temperatureAdjusted.isSome) ||
    (m.salinity.isSome || m.salinityAdjusted.isSome) ||
    m.oxygen.isSome ||
    m.chlorophyllA.isSome

/-- Body of the per-level loop of
`mappers.ArgoDataMapper._create_measurement_models`: skip a NaN pressure
(`continue`), build the measurement, keep it only if `_has_valid_data`. -/
def buildLevelMeasurement (p : ParsedProfile) (i : ℕ) : Option Measurement :=
  match levelVal p.pressure i with
  | none => none
  | some pres =>
    let m0 : Measurement :=
      { profileId := p.profileId
        pressure := some pres
        depth := some (pressureToDepth pres)
        pressureQc := levelQc p.pressureQc i }
    let m3 := addOptionalMeasurements p i (addSalinityData p i (addTemperatureData p i m0))
    if hasValidData m3 then some m3 else none

/-- `mappers.ArgoDataMapper._create_measurement_models`: iterate the levels of
the pressure array (empty result when the array is absent). -/
def createMeasurementModels (p : ParsedProfile) : List Measurement :=
  match p.pressure with
  | none => []
  | some ps => (List.range ps.length).filterMap (buildLevelMeasurement p)

/-- `db.models.ArgoFloat` row (the columns the ingestion pipeline touches). -/
structure FloatRow where
  floatId : String
  platformNumber : Option String := none
  projectName : Option String := none
  piName : Option String := none
  institution : Option String := none
  status : Option String := none
  deploymentDate : Option ℚ := none
  lastContactDate : Option ℚ := none
  lastLatitude : Option ℚ := none
  lastLongitude : Option ℚ := none
  totalProfiles : Option ℤ := none
  firstProfileDate : Option ℚ := none
  lastProfileDate : Option ℚ := none
deriving DecidableEq

/-- `project_name[:200] if profile.project_name else None` (an empty string is
falsy in Python). -/
def truncMeta (s : Option String) : Option String :=
  match s with
  | none => none
  | some str => if str = "" then none else some (str.take 200)

/-- New-float branch of `mappers.ArgoDataMapper._get_or_create_float`. -/
def newFloatRow (p : ParsedProfile) : FloatRow :=
  { floatId := p.floatId
    platformNumber := p.platformNumber
    projectName := truncMeta p.projectName
    piName := truncMeta p.piName
    status := some "active"
    deploymentDate := some p.dateTime
    lastContactDate := some p.dateTime
    totalProfiles := some 1
    firstProfileDate := some p.dateTime
    lastProfileDate := some p.dateTime }

/-- Existing-float branch of `mappers.ArgoDataMapper._get_or_create_float`:
refresh last contact and position only when the profile is strictly newer,
unconditionally increment the profile count, widen the first/last profile
dates. -/
def updateFloatRow (fm : FloatRow) (p : ParsedProfile) : FloatRow :=
  let fm1 :=
    match fm.lastContactDate with
    | none =>
      { fm with lastContactDate := some p.dateTime
                lastLatitude := some p.latitude
                lastLongitude := some p.longitude }
    | some d =>
      if p.dateTime > d then
        { fm with lastContactDate := some p.dateTime
                  lastLatitude := some p.latitude
                  lastLongitude := some p.longitude }
      else fm
  let fm2 := { fm1 with totalProfiles := some (fm1.totalProfiles.getD 0 + 1) }
  let fm3 :=
    match fm2.firstProfileDate with
    | none => { fm2 with firstProfileDate := some p.dateTime }
    | some d =>
      if p.dateTime < d then { fm2 with firstProfileDate := some p.dateTime } else fm2
  match fm3.lastProfileDate with
  | none => { fm3 with lastProfileDate := some p.dateTime }
  | some d =>
    if p.dateTime > d then { fm3 with lastProfileDate := some p.dateTime } else fm3

/-- The mapper's in-run float cache (`self._float_cache`), keyed by float id. -/
abbrev FloatCache := List (String × FloatRow)

/-- `mappers.ArgoDataMapper._get_or_create_float`: a cache hit returns the
cached record immediately; otherwise query the store, create or update, and
cache the result. -/
def getOrCreateFloat (dbFind : String → Option FloatRow) (cache : FloatCache)
    (p : ParsedProfile) : FloatRow × FloatCache :=
  match cache.lookup p.floatId with
  | some fm => (fm, cache)
  | none =>
    let fm :=
      match dbFind p.floatId with
      | none => newFloatRow p
      | some row => updateFloatRow row p
    (fm, (p.floatId, fm) :: cache)

/-- `db.models.ArgoProfile` row as built by the mapper. -/
structure ProfileRow where
  profileId : String
  floatId : String
  cycleNumber : ℤ
  dataMode : String
  latitude : ℚ
  longitude : ℚ
  measurementDate : ℚ
  dataPoints : ℕ
  maxPressure : Option ℚ := none
  minPressure : Option ℚ := none
  qualityFlag : String
deriving DecidableEq

/-- The finite (non-NaN) entries of a per-level array, in order. -/
def finiteVals (arr : List (Option ℚ)) : List ℚ :=
  arr.filterMap id

/-- `mappers.ArgoDataMapper._create_profile_model`: level count over the
non-NaN pressure mask, min/max pressure ignoring NaN, quality flag A iff the
position flag is the string 1. -/
def createProfileModel (p : ParsedProfile) : ProfileRow :=
  let nLevels : ℕ :=
    match p.pressure with
    | none => 0
    | some ps => (finiteVals ps).length
  { profileId := p.profileId
    floatId := p.floatId
    cycleNumber := p.cycleNumber
    dataMode := p.dataMode
    latitude := p.latitude
    longitude := p.longitude
    measurementDate := p.dateTime
    dataPoints := nLevels
    maxPressure :=
      match p.pressure with
      | none => none
      | some ps => if 0 < nLevels then (finiteVals ps).max? else none
    minPressure :=
      match p.pressure with
      | none => none
      | some ps => if 0 < nLevels then (finiteVals ps).min? else none
    qualityFlag := if p.positionQc = some "1" then "A" else "B" }

/-- `mappers.ArgoDataMapper.map_profile_to_models`. -/
def mapProfileToModels (dbFind : String → Option FloatRow) (cache : FloatCache)
    (p : ParsedProfile) : (FloatRow × ProfileRow × List Measurement) × FloatCache :=
  let (fm, cache2) := getOrCreateFloat dbFind cache p
  ((fm, createProfileModel p, createMeasurementModels p), cache2)

/-- Result of `mappers.batch_map_profiles` (the models dictionary). -/
structure MappedModels where
  floats : List FloatRow
  profiles : List ProfileRow
  measurements : List Measurement
deriving DecidableEq

/-- Python dict assignment `unique_floats[float_id] = float_model`: key order
is first insertion, value is the last assignment for the key. -/
def dictInsertFloat (acc : List FloatRow) (fm : FloatRow) : List FloatRow :=
  if acc.any (fun r => r.floatId == fm.floatId) then
    acc.map (fun r => if r.floatId == fm.floatId then fm else r)
  else acc ++ [fm]

/-- The float dedupe at the end of `mappers.batch_map_profiles`. -/
def dedupeFloats (fs : List FloatRow) : List FloatRow :=
  fs.foldl dictInsertFloat []

/-- `mappers.batch_map_profiles`: a fresh mapper (empty cache) folds over the
accepted profiles, collecting float, profile and measurement models; floats
are deduplicated by id at the end. -/
def batchMapProfiles (dbFind : String → Option FloatRow)
    (profiles : List ParsedProfile) : MappedModels :=
  let step := fun (acc : List FloatRow × List ProfileRow × List Measurement × FloatCache)
      (p : ParsedProfile) =>
    let (fs, prs, ms, cache) := acc
    let ((fm, pr, mlist), cache2) := mapProfileToModels dbFind cache p
    (fs ++ [fm], prs ++ [pr], ms ++ mlist, cache2)
  let (fs, prs, ms, _) := profiles.foldl step ([], [], [], [])
  { floats := dedupeFloats fs, profiles := prs, measurements := ms }

/-! ## Database operations (`database_ops.py`) and schema (`db/models.py`) -/

/-- One `data_ingestion_logs` row as written by
`DatabaseOperations.log_ingestion_result`. -/
structure LogRow where
  filename : String
  filePath : String
  status : String
  profilesProcessed : ℕ
  startedAt : ℚ
  completedAt : Option ℚ
  errorMessage : Option String
deriving DecidableEq

/-- The `argo_measurements` insert dictionary built by
`DatabaseOperations._bulk_insert_measurements` (note: the adjusted quality
flags are not part of it). -/
structure MeasurementRow where
  profileId : String
  pressure : Option ℚ
  depth : Option ℚ
  pressureQc : Option String
  temperature : Option ℚ
  temperatureQc : Option String
  temperatureAdjusted : Option ℚ
  salinity : Option ℚ
  salinityQc : Option String
  salinityAdjusted : Option ℚ
  oxygen : Option ℚ
  oxygenQc : Option String
  chlorophyllA : Option ℚ
  chlorophyllAQc : Option String
deriving DecidableEq

/-- Projection of a mapper measurement onto the insert dictionary of
`_bulk_insert_measurements`. -/
def measurementInsertValues (m : Measurement) : MeasurementRow :=
  { profileId := m.profileId
    pressure := m.pressure
    depth := m.depth
    pressureQc := m.pressureQc
    temperature := m.temperature
    temperatureQc := m.temperatureQc
    temperatureAdjusted := m.temperatureAdjusted
    salinity := m.salinity
    salinityQc := m.salinityQc
    salinityAdjusted := m.salinityAdjusted
    oxygen := m.oxygen
    oxygenQc := m.oxygenQc
    chlorophyllA := m.chlorophyllA
    chlorophyllAQc := m.chlorophyllAQc }

/-- The whole persistent store. -/
structure Db where
  floats : List FloatRow := []
  profiles : List ProfileRow := []
  measurements : List MeasurementRow := []
  logs : List LogRow := []
deriving DecidableEq

/-- Unique column sets of `argo_floats` in `db/models.py`: the primary key and
`float_id` (declared `unique=True`). -/
def argoFloatsUniqueColumnSets : List (List String) :=
  [["id"], ["float_id"]]

/-- Unique column sets of `argo_profiles` in `db/models.py`: the primary key
and `profile_id` (declared `unique=True`). -/
def argoProfilesUniqueColumnSets : List (List String) :=
  [["id"], ["profile_id"]]

/-- Unique column sets of `argo_measurements` in `db/models.py`: only the
primary key. `ix_measurement_profile_pressure` on (profile_id, pressure) is a
plain `Index`, not a unique one, and there is no `UniqueConstraint`. -/
def argoMeasurementsUniqueColumnSets : List (List String) :=
  [["id"]]

/-- PostgreSQL accepts `ON CONFLICT (target)` only when some unique index or
constraint covers exactly the target columns (the arbiter). -/
def hasConflictArbiter (uniqueSets : List (List String)) (target : List String) : Bool :=
  uniqueSets.any (fun u => u.all (fun c => target.contains c) && target.all (fun c => u.contains c))

/-- Error raised by PostgreSQL when the arbiter is missing. -/
def missingArbiterError : String :=
  "there is no unique or exclusion constraint matching the ON CONFLICT specification"

/-- The `float_dict` built in `DatabaseOperations._upsert_floats`; these are
the only columns of the VALUES clause. -/
structure FloatInsert where
  floatId : String
  platformNumber : Option String
  projectName : Option String
  piName : Option String
  status : Option String
  deploymentDate : Option ℚ
  lastContactDate : Option ℚ
  totalProfiles : Option ℤ
deriving DecidableEq

/-- `_upsert_floats`: projection of the mapper float model onto the insert
dictionary. -/
def floatInsertValues (fm : FloatRow) : FloatInsert :=
  { floatId := fm.floatId
    platformNumber := fm.platformNumber
    projectName := fm.projectName
    piName := fm.piName
    status := fm.status
    deploymentDate := fm.deploymentDate
    lastContactDate := fm.lastContactDate
    totalProfiles := fm.totalProfiles }

/-- The row the VALUES clause proposes for insertion (PostgreSQL `excluded`):
columns absent from the insert dictionary (institution, last position,
first/last profile dates) take their NULL defaults. -/
def insertedFloatRow (v : FloatInsert) : FloatRow :=
  { floatId := v.floatId
    platformNumber := v.platformNumber
    projectName := v.projectName
    piName := v.piName
    status := v.status
    deploymentDate := v.deploymentDate
    lastContactDate := v.lastContactDate
    totalProfiles := v.totalProfiles }

/-- The `set_` clause of `_upsert_floats`: on conflict refresh exactly
`last_contact_date`, `total_profiles`, `status`, `last_profile_date` from the
excluded row. -/
def applyFloatConflictUpdate (excludedRow : FloatRow) (r : FloatRow) : FloatRow :=
  { r with
    lastContactDate := excludedRow.lastContactDate
    totalProfiles := excludedRow.totalProfiles
    status := excludedRow.status
    lastProfileDate := excludedRow.lastProfileDate }

/-- Effect of one VALUES row of the float upsert on the table. -/
def upsertFloatValues (table : List FloatRow) (v : FloatInsert) : List FloatRow :=
  if table.any (fun r => r.floatId == v.floatId) then
    table.map (fun r =>
      if r.floatId == v.floatId then applyFloatConflictUpdate (insertedFloatRow v) r else r)
  else table ++ [insertedFloatRow v]

/-- `DatabaseOperations._upsert_floats`: one bulk statement over all float
models; the conflict target `float_id` has a unique index. Returns the table
and the rowcount. -/
def upsertFloats (floats : List FloatRow) (table : List FloatRow) :
    Except String (List FloatRow × ℕ) :=
  if floats.isEmpty then .ok (table, 0)
  else if hasConflictArbiter argoFloatsUniqueColumnSets ["float_id"] then
    .ok ((floats.map floatInsertValues).foldl upsertFloatValues table, floats.length)
  else .error missingArbiterError

/-- The `set_` clause of `_upsert_profiles`: on conflict refresh `data_mode`,
`data_points`, `max_pressure`, `min_pressure`, `quality_flag`. -/
def applyProfileConflictUpdate (excludedRow : ProfileRow) (r : ProfileRow) : ProfileRow :=
  { r with
    dataMode := excludedRow.dataMode
    dataPoints := excludedRow.dataPoints
    maxPressure := excludedRow.maxPressure
    minPressure := excludedRow.minPressure
    qualityFlag := excludedRow.qualityFlag }

/-- Effect of one VALUES row of the profile upsert on the table. -/
def upsertProfileValues (table : List ProfileRow) (v : ProfileRow) : List ProfileRow :=
  if table.any (fun r => r.profileId == v.profileId) then
    table.map (fun r =>
      if r.profileId == v.profileId then applyProfileConflictUpdate v r else r)
  else table ++ [v]

/-- `DatabaseOperations._upsert_profiles`. -/
def upsertProfiles (profiles : List ProfileRow) (table : List ProfileRow) :
    Except String (List ProfileRow × ℕ) :=
  if profiles.isEmpty then .ok (table, 0)
  else if hasConflictArbiter argoProfilesUniqueColumnSets ["profile_id"] then
    .ok (profiles.foldl upsertProfileValues table, profiles.length)
  else .error missingArbiterError

/-- Conflict target of the measurement upsert in
`_bulk_insert_measurements`: `index_elements=['profile_id', 'pressure']`. -/
def measurementConflictTarget : List String :=
  ["profile_id", "pressure"]

/-- The `set_` clause of `_bulk_insert_measurements`: on conflict every
scientific field and quality flag is refreshed from the excluded row. -/
def applyMeasurementConflictUpdate (excludedRow : MeasurementRow) (r : MeasurementRow) :
    MeasurementRow :=
  { r with
    depth := excludedRow.depth
    pressureQc := excludedRow.pressureQc
    temperature := excludedRow.temperature
    temperatureQc := excludedRow.temperatureQc
    temperatureAdjusted := excludedRow.temperatureAdjusted
    salinity := excludedRow.salinity
    salinityQc := excludedRow.salinityQc
    salinityAdjusted := excludedRow.salinityAdjusted
    oxygen := excludedRow.oxygen
    oxygenQc := excludedRow.oxygenQc
    chlorophyllA := excludedRow.chlorophyllA
    chlorophyllAQc := excludedRow.chlorophyllAQc }

/-- Effect of one VALUES row of the measurement upsert, keyed on the composite
(profile_id, pressure). -/
def upsertMeasurementValues (table : List MeasurementRow) (v : MeasurementRow) :
    List MeasurementRow :=
  if table.any (fun r => r.profileId == v.profileId && r.pressure == v.pressure) then
    table.map (fun r =>
      if r.profileId == v.profileId && r.pressure == v.pressure then
        applyMeasurementConflictUpdate v r
      else r)
  else table ++ [v]

/-- Execution of one batched `INSERT ... ON CONFLICT (profile_id, pressure) DO
UPDATE` statement: PostgreSQL first looks for a unique arbiter for the
conflict target and raises when none exists. -/
def executeMeasurementUpsert (batch : List MeasurementRow) (table : List MeasurementRow) :
    Except String (List MeasurementRow × ℕ) :=
  if hasConflictArbiter argoMeasurementsUniqueColumnSets measurementConflictTarget then
    .ok (batch.foldl upsertMeasurementValues table, batch.length)
  else .error missingArbiterError

/-- `DatabaseOperations._bulk_insert_measurements`: process the measurement
list in batches of `batch_size`, one statement per batch. -/
def bulkInsertMeasurements (batchSize : ℕ) (ms : List MeasurementRow)
    (table : List MeasurementRow) : Except String (List MeasurementRow × ℕ) :=
  if ms.isEmpty then .ok (table, 0)
  else
    (List.toChunks batchSize ms).foldlM
      (fun acc batch => do
        let (t2, n) ← executeMeasurementUpsert batch acc.1
        pure (t2, acc.2 + n))
      (table, 0)

/-- `DatabaseOperations.bulk_insert_models`: floats first, then profiles, then
measurements; any statement error propagates to the caller. -/
def bulkInsertModels (batchSize : ℕ) (models : MappedModels) (db : Db) :
    Except String (Db × (ℕ × ℕ × ℕ)) := do
  let (ftab, fcount) ← upsertFloats models.floats db.floats
  let (ptab, pcount) ← upsertProfiles models.profiles db.profiles
  let (mtab, mcount) ←
    bulkInsertMeasurements batchSize (models.measurements.map measurementInsertValues)
      db.measurements
  pure ({ db with floats := ftab, profiles := ptab, measurements := mtab },
    (fcount, pcount, mcount))

/-- `mappers.create_ingestion_log_entry` (the fields the log row uses). -/
structure LogEntry where
  filePath : String
  status : String
  recordsProcessed : ℕ
  recordsInserted : ℕ
  errorCount : ℕ
  errorMessages : List String
  ingestedAt : ℚ
deriving DecidableEq

/-- `mappers.create_ingestion_log_entry`: status is success iff the file
result was successful; at most ten error messages are kept. -/
def createIngestionLogEntry (filePath : String) (success : Bool)
    (recordsProcessed recordsInserted : ℕ) (errors : List String) (now : ℚ) : LogEntry :=
  { filePath := filePath
    status := if success then "success" else "failed"
    recordsProcessed := recordsProcessed
    recordsInserted := recordsInserted
    errorCount := errors.length
    errorMessages := errors.take 10
    ingestedAt := now }

/-- `Path(file_path).name`. -/
def pathBasename (path : String) : String :=
  (path.splitOn "/").getLastD path

/-- The `DataIngestionLog` model built inside
`DatabaseOperations.log_ingestion_result`. -/
def buildLogRow (e : LogEntry) : LogRow :=
  { filename := pathBasename e.filePath
    filePath := e.filePath
    status := e.status
    profilesProcessed := e.recordsProcessed
    startedAt := e.ingestedAt
    completedAt := if e.status = "success" then some e.ingestedAt else none
    errorMessage :=
      if e.errorMessages.isEmpty then none
      else some (String.intercalate "\x0a" e.errorMessages) }

/-- `DatabaseOperations.log_ingestion_result`: build the audit row and hand it
to the session; any exception from the write is logged locally and swallowed
(the function does not re-raise), leaving the store as it was. -/
def logIngestionResult (write : LogRow → Except String Db) (filePath : String)
    (success : Bool) (recordsProcessed recordsInserted : ℕ) (errors : List String)
    (now : ℚ) (db : Db) : Except String Db :=
  match write (buildLogRow
      (createIngestionLogEntry filePath success recordsProcessed recordsInserted errors now)) with
  | .ok db2 => .ok db2
  | .error _ => .ok db

/-- `DatabaseOperations.get_ingestion_status`: the row for the path with the
latest `started_at` (ORDER BY started_at DESC ... first()). -/
def getIngestionStatus (logs : List LogRow) (filePath : String) : Option LogRow :=
  (logs.filter (fun r => r.filePath == filePath)).foldl
    (fun acc r =>
      match acc with
      | none => some r
      | some a => if r.startedAt > a.startedAt then some r else acc)
    none

/-! ## Transaction manager (`database_ops.TransactionManager`) -/

/-- The backoff delay slept after failed attempt number `attempt`:
`retry_delay * 2 ** attempt` with exponential backoff, else `retry_delay`. -/
def retryDelayFor (retryDelay : ℚ) (exponentialBackoff : Bool) (attempt : ℕ) : ℚ :=
  if exponentialBackoff then retryDelay * 2 ^ attempt else retryDelay

/-- Loop body of `TransactionManager.execute_with_retry`: `remaining` is the
number of attempts left after the current one; the operation is modelled as a
function of the attempt index. Returns the final outcome and the list of
sleeps performed, in order. -/
def executeWithRetryGo {E A : Type} (retryDelay : ℚ) (exponentialBackoff : Bool)
    (op : ℕ → Except E A) (attempt : ℕ) : ℕ → Except E A × List ℚ
  | 0 => (op attempt, [])
  | remaining + 1 =>
    match op attempt with
    | .ok a => (.ok a, [])
    | .error _ =>
      let d := retryDelayFor retryDelay exponentialBackoff attempt
      let (res, ds) := executeWithRetryGo retryDelay exponentialBackoff op (attempt + 1) remaining
      (res, d :: ds)

/-- `TransactionManager.execute_with_retry`: attempts 0 .. max_retries; a
persistence-layer exception on the last attempt is re-raised, otherwise the
loop sleeps the backoff delay and retries; a successful attempt returns its
result immediately. -/
def executeWithRetry {E A : Type} (maxRetries : ℕ) (retryDelay : ℚ)
    (exponentialBackoff : Bool) (op : ℕ → Except E A) : Except E A × List ℚ :=
  executeWithRetryGo retryDelay exponentialBackoff op 0 maxRetries

/-! ## Configuration (`config.py`) -/

/-- `config.DataMode`. -/
inductive DataMode
  | realTime
  | delayedMode
  | adjusted
deriving DecidableEq

/-- `DataMode(profile.data_mode)`: the enum constructor raises ValueError on
any other string, modelled as `none`. -/
def dataModeOfString (s : String) : Option DataMode :=
  if s = "R" then some .realTime
  else if s = "D" then some .delayedMode
  else if s = "A" then some .adjusted
  else none

/-- `config.ValidationConfig` (dates modelled as rational timestamps). -/
structure ValidationConfig where
  tempMin : ℚ := -5
  tempMax : ℚ := 40
  salinityMin : ℚ := 0
  salinityMax : ℚ := 45
  latitudeMin : ℚ := -90
  latitudeMax : ℚ := 90
  longitudeMin : ℚ := -180
  longitudeMax : ℚ := 180
  minDate : ℚ
  maxDate : ℚ
deriving DecidableEq

/-- The optional geographic filter dictionary (`config.geographic_bounds`);
absent keys fall back to the defaults used at the lookup site. -/
structure GeoBounds where
  latMin : Option ℚ := none
  latMax : Option ℚ := none
  lonMin : Option ℚ := none
  lonMax : Option ℚ := none
deriving DecidableEq

/-- `config.IngestionConfig` (the knobs the pipeline reads). -/
structure IngestionConfig where
  batchSize : ℕ := 1000
  maxWorkers : ℕ := 4
  maxRetries : ℕ := 3
  retryDelay : ℚ := 1
  exponentialBackoff : Bool := true
  maxErrorsPerFile : ℕ := 10
  dataModes : List DataMode := [.realTime, .delayedMode, .adjusted]
  geographicBounds : Option GeoBounds := none
  dateRange : Option (ℚ × ℚ) := none
  validation : ValidationConfig
deriving DecidableEq

/-! ## Parser (`parsers.py`) -/

/-- Nanoseconds per day, the resolution of a pandas Timedelta. -/
def nsPerDay : ℤ :=
  86400 * 1000000000

/-- `ArgoNetCDFParser._julian_to_datetime`: `datetime(1950, 1, 1, UTC) +
pd.Timedelta(days=julian_day)`. The result is modelled as an integer count of
nanoseconds since the 1950-01-01 UTC epoch: the Timedelta quantizes the
fractional day count to whole nanoseconds. -/
def julianToDatetime (julianDay : ℚ) : ℤ :=
  round (julianDay * (nsPerDay : ℚ))

/-- Modelled from the spec: the repository has no encoder back from
timestamps to reference-day counts; per the spec's round-trip property the
encoding is the exact number of days since the 1950-01-01 UTC epoch. -/
def datetimeToJulian (t : ℤ) : ℚ :=
  (t : ℚ) / (nsPerDay : ℚ)

/-- np.logical_and(arr >= lo, arr <= hi) followed by np.any: a NaN entry
compares false. -/
def anyInRange (arr : List (Option ℚ)) (lo hi : ℚ) : Bool :=
  arr.any (fun v =>
    match v with
    | none => false
    | some x => decide (lo ≤ x) && decide (x ≤ hi))

/-- Possible outcomes of `ArgoNetCDFParser._validate_profile`: an exception
escaping it, a silent filter rejection (no message recorded), a rejection
recording bound-violation messages, or acceptance recording warnings. -/
inductive ValidationOutcome
  | raised (msg : String)
  | rejectedSilent
  | rejectedErrors (errs : List String)
  | accepted (warns : List String)
deriving DecidableEq

/-- `ArgoNetCDFParser._validate_profile`, in source order: collect
geographic/date bound errors locally; the optional geographic and date-range
filters return False before those errors are recorded; `DataMode(...)` raises
on an unknown data-mode string; a data mode outside the accepted set returns
False silently; out-of-range measurement sweeps only add warnings; finally the
collected errors (if any) are recorded and reject the profile. -/
def validateProfile (cfg : IngestionConfig) (p : ParsedProfile) : ValidationOutcome :=
  let errors : List String :=
    (if cfg.validation.latitudeMin ≤ p.latitude ∧ p.latitude ≤ cfg.validation.latitudeMax
      then [] else ["Latitude " ++ toString p.latitude ++ " out of bounds"]) ++
    (if cfg.validation.longitudeMin ≤ p.longitude ∧ p.longitude ≤ cfg.validation.longitudeMax
      then [] else ["Longitude " ++ toString p.longitude ++ " out of bounds"]) ++
    (if cfg.validation.minDate ≤ p.dateTime ∧ p.dateTime ≤ cfg.validation.maxDate
      then [] else ["Date " ++ toString p.dateTime ++ " out of range"])
  let geoReject : Bool :=
    match cfg.geographicBounds with
    | none => false
    | some b =>
      !(decide (b.latMin.getD (-90) ≤ p.latitude ∧ p.latitude ≤ b.latMax.getD 90)) ||
      !(decide (b.lonMin.getD (-180) ≤ p.longitude ∧ p.longitude ≤ b.lonMax.getD 180))
  let dateReject : Bool :=
    match cfg.dateRange with
    | none => false
    | some r => !(decide (r.1 ≤ p.dateTime ∧ p.dateTime ≤ r.2))
  if geoReject then .rejectedSilent
  else if dateReject then .rejectedSilent
  else
    match dataModeOfString p.dataMode with
    | none => .raised ("ValueError: " ++ p.dataMode ++ " is not a valid DataMode")
    | some dm =>
      if dm ∈ cfg.dataModes then
        let warns : List String :=
          (match p.temperature with
            | none => []
            | some arr =>
              if anyInRange arr cfg.validation.tempMin cfg.validation.tempMax then []
              else ["No valid temperature measurements"]) ++
          (match p.salinity with
            | none => []
            | some arr =>
              if anyInRange arr cfg.validation.salinityMin cfg.validation.salinityMax then []
              else ["No valid salinity measurements"])
        if errors = [] then .accepted warns else .rejectedErrors errors
      else .rejectedSilent

/-- The `f"Profile {profile.profile_id}: {msg}"` tag applied when
`_validate_profile` records messages on the file result. -/
def tagProfileMsgs (profileId : String) (msgs : List String) : List String :=
  msgs.map (fun m => "Profile " ++ profileId ++ ": " ++ m)

/-- Mutable per-file accumulation on the `FileProcessingResult` during
`_parse_profiles` (accepted profiles, error and warning lists, skip count). -/
structure ParseState where
  profiles : List ParsedProfile := []
  errors : List String := []
  warnings : List String := []
  recordsSkipped : ℕ := 0
deriving DecidableEq

/-- One iteration of the loop in `ArgoNetCDFParser._parse_profiles` over
profile index `idx`. The slot is `none` when `_parse_single_profile` returned
None (it catches its own exceptions). Returns the new state and whether the
loop continues: only the exception handler checks the error budget
(`len(result.errors) >= max_errors_per_file` breaks). -/
def parseStep (cfg : IngestionConfig) (idx : ℕ) (st : ParseState)
    (slot : Option ParsedProfile) : ParseState × Bool :=
  match slot with
  | none => ({ st with recordsSkipped := st.recordsSkipped + 1 }, true)
  | some p =>
    match validateProfile cfg p with
    | .accepted warns =>
      ({ st with
          profiles := st.profiles ++ [p]
          warnings := st.warnings ++ tagProfileMsgs p.profileId warns }, true)
    | .rejectedSilent =>
      ({ st with recordsSkipped := st.recordsSkipped + 1 }, true)
    | .rejectedErrors errs =>
      ({ st with
          errors := st.errors ++ tagProfileMsgs p.profileId errs
          recordsSkipped := st.recordsSkipped + 1 }, true)
    | .raised msg =>
      let st2 :=
        { st with
            errors := st.errors ++ ["Error parsing profile " ++ toString idx ++ ": " ++ msg]
            recordsSkipped := st.recordsSkipped + 1 }
      (st2, decide (st2.errors.length < cfg.maxErrorsPerFile))

/-- The loop of `ArgoNetCDFParser._parse_profiles`. -/
def parseProfilesGo (cfg : IngestionConfig) :
    ℕ → ParseState → List (Option ParsedProfile) → ParseState
  | _, st, [] => st
  | idx, st, slot :: rest =>
    let (st2, cont) := parseStep cfg idx st slot
    if cont then parseProfilesGo cfg (idx + 1) st2 rest else st2

/-- `ArgoNetCDFParser._parse_profiles` from a fresh file result. -/
def parseProfiles (cfg : IngestionConfig) (slots : List (Option ParsedProfile)) :
    ParseState :=
  parseProfilesGo cfg 0 {} slots

/-- `config.FileProcessingResult` (the fields the service reads); the parsed
profiles live in `result.metadata['profiles']`. -/
structure FileResult where
  success : Bool
  recordsProcessed : ℕ := 0
  recordsInserted : ℕ := 0
  recordsSkipped : ℕ := 0
  errors : List String := []
  warnings : List String := []
  profiles : List ParsedProfile := []
deriving DecidableEq

/-- `ArgoNetCDFParser.parse_file`: a missing required variable fails the whole
file; otherwise the profile loop runs and the result carries the accepted
profiles with `records_processed = len(profiles)` and `success = True`. -/
def parseFile (cfg : IngestionConfig) (missingVars : List String)
    (slots : List (Option ParsedProfile)) : FileResult :=
  if missingVars = [] then
    let st := parseProfiles cfg slots
    { success := true
      recordsProcessed := st.profiles.length
      recordsSkipped := st.recordsSkipped
      errors := st.errors
      warnings := st.warnings
      profiles := st.profiles }
  else
    { success := false
      errors := ["Missing required variables: " ++ String.intercalate ", " missingVars] }

/-! ## Ingestion service (`service.py`) -/

/-- The database phase of `ArgoIngestionService.ingest_file`: map the parsed
profiles, bulk insert inside the savepoint transaction, set the result
counters, and write the audit row (all inside the savepoint). -/
def ingestFileDbPhase (cfg : IngestionConfig) (parseResult : FileResult)
    (filePath : String) (now : ℚ) (db : Db) : Except String (FileResult × Db) := do
  let models := batchMapProfiles
    (fun fid => db.floats.find? (fun r => r.floatId == fid)) parseResult.profiles
  let (db2, counts) ← bulkInsertModels cfg.batchSize models db
  let r2 := { parseResult with
    recordsInserted := counts.2.1
    recordsProcessed := parseResult.profiles.length }
  let db3 ← logIngestionResult
    (fun row => .ok { db2 with logs := db2.logs ++ [row] })
    filePath r2.success r2.recordsProcessed r2.recordsInserted r2.errors now db2
  pure (r2, db3)

/-- `ArgoIngestionService.ingest_file`: structural pre-validation, parse,
empty-profiles check, dry-run short-circuit, then the database phase; a
database exception rolls the savepoint back (store unchanged), appends the
error and marks the result failed. -/
def ingestFile (cfg : IngestionConfig) (fileValidation : Bool × List String)
    (parseResult : FileResult) (dryRun : Bool) (filePath : String) (now : ℚ)
    (db : Db) : FileResult × Db :=
  if !fileValidation.1 then
    ({ success := false, errors := fileValidation.2 }, db)
  else if !parseResult.success then (parseResult, db)
  else if parseResult.profiles.isEmpty then
    ({ parseResult with
        errors := parseResult.errors ++ ["No valid profiles found in file"]
        success := false }, db)
  else if dryRun then
    ({ parseResult with recordsProcessed := parseResult.profiles.length }, db)
  else
    match ingestFileDbPhase cfg parseResult filePath now db with
    | .ok (r2, db3) => (r2, db3)
    | .error e =>
      ({ parseResult with
          success := false
          errors := parseResult.errors ++ ["Database error for " ++ filePath ++ ": " ++ e] },
        db)

/-- What a `resume_ingestion` run decides and does. -/
structure ResumeRun where
  filesToProcess : List String
  filesSkipped : ℕ
  processedFiles : List String
deriving DecidableEq

/-- `ArgoIngestionService.resume_ingestion`: discover all files; when
`skip_successful`, filter out files whose latest audit-log entry has status
success (counting them skipped); then call `ingest_directory(directory,
file_patterns)` — which re-discovers and processes every file in the
directory, ignoring the filtered list. -/
def resumeIngestion (allFiles : List String) (logs : List LogRow)
    (skipSuccessful : Bool) : ResumeRun :=
  let filesToProcess :=
    if skipSuccessful then
      allFiles.filter (fun f =>
        match getIngestionStatus logs f with
        | none => true
        | some row => !(row.status == "success"))
    else allFiles
  { filesToProcess := filesToProcess
    filesSkipped := allFiles.length - filesToProcess.length
    processedFiles := allFiles }

/-! ## Scientific-field dispatch (enum-to-accessor view of the mapper's
per-parameter assignments) -/

/-- The scientific parameters a measurement can carry besides pressure. -/
inductive SciField
  | temperature
  | temperatureAdjusted
  | salinity
  | salinityAdjusted
  | oxygen
  | chlorophyll
deriving DecidableEq

/-- The finite level value of a scientific parameter in a parsed profile. -/
def profileFieldAt (f : SciField) (p : ParsedProfile) (i : ℕ) : Option ℚ :=
  match f with
  | .temperature => levelVal p.temperature i
  | .temperatureAdjusted => levelVal p.temperatureAdjusted i
  | .salinity => levelVal p.salinity i
  | .salinityAdjusted => levelVal p.salinityAdjusted i
  | .oxygen => levelVal p.oxygen i
  | .chlorophyll => levelVal p.chlorophyll i

/-- The corresponding column of the mapped measurement. -/
def measurementField (f : SciField) (m : Measurement) : Option ℚ :=
  match f with
  | .temperature => m.temperature
  | .temperatureAdjusted => m.temperatureAdjusted
  | .salinity => m.salinity
  | .salinityAdjusted => m.salinityAdjusted
  | .oxygen => m.oxygen
  | .chlorophyll => m.chlorophyllA

/-! ## Claim theorems -/

/-- C8: reference-day decoding round-trips: for every day-count, encoding the
decoded timestamp back to a day-count and re-decoding yields the same
timestamp. -/
theorem julian_day_decode_roundtrip (j : ℚ) :
    julianToDatetime (datetimeToJulian (julianToDatetime j)) = julianToDatetime j := by
  unfold julianToDatetime datetimeToJulian
  rw [div_mul_cancel₀]
  · exact round_intCast _
  · norm_num [nsPerDay]

/-- C9: a failure while writing the per-file audit-log row is swallowed:
`log_ingestion_result` returns normally whatever the write does, so the
ingestion it describes is never aborted by an audit-log write failure. -/
theorem log_ingestion_result_never_raises (write : LogRow → Except String Db)
    (filePath : String) (success : Bool) (recordsProcessed recordsInserted : ℕ)
    (errors : List String) (now : ℚ) (db : Db) :
    ∃ db2, logIngestionResult write filePath success recordsProcessed recordsInserted
      errors now db = .ok db2 := by
  unfold logIngestionResult
  cases write (buildLogRow (createIngestionLogEntry filePath success recordsProcessed
      recordsInserted errors now)) with
  | ok db2 => exact ⟨db2, rfl⟩
  | error e => exact ⟨db, rfl⟩

/-- Audit-log rows of a prior run: file A succeeded, file B failed. -/
def logsC1 : List LogRow :=
  [{ filename := "A.nc", filePath := "argo/A.nc", status := "success",
     profilesProcessed := 3, startedAt := 1, completedAt := some 1, errorMessage := none },
   { filename := "B.nc", filePath := "argo/B.nc", status := "failed",
     profilesProcessed := 0, startedAt := 2, completedAt := none,
     errorMessage := some "boom" }]

/-- C1: `resume_ingestion` with `skip_successful=True` computes the filtered
list (only B) but then processes every discovered file: the already-successful
file A is handed to `ingest_directory` again. -/
theorem resume_ingestion_reprocesses_successful_file :
    (resumeIngestion ["argo/A.nc", "argo/B.nc"] logsC1 true).filesToProcess = ["argo/B.nc"] ∧
    (resumeIngestion ["argo/A.nc", "argo/B.nc"] logsC1 true).processedFiles =
      ["argo/A.nc", "argo/B.nc"] := by
  constructor <;> rfl

/-- First sighting of float F1 (timestamp 0). -/
def profileC3a : ParsedProfile :=
  { floatId := "F1", cycleNumber := 1, profileId := "F1_1", dataMode := "R",
    latitude := 10, longitude := 20, dateTime := 0 }

/-- Second sighting of float F1 (timestamp 1, a distinct profile). -/
def profileC3b : ParsedProfile :=
  { floatId := "F1", cycleNumber := 2, profileId := "F1_2", dataMode := "R",
    latitude := 11, longitude := 21, dateTime := 1 }

/-- C3: a brand-new float sighted across two distinct profiles in one run ends
the run with `total_profiles = 1` and `first_profile_date = last_profile_date
= 0` (the first sighting's timestamp): the cache hit in
`_get_or_create_float` returns before the increment/widening logic runs, so
the claimed totals N, min and max of the timestamps are not produced. -/
theorem float_cache_skips_repeat_sightings :
    (batchMapProfiles (fun _ => none) [profileC3a, profileC3b]).floats.map
      (fun r => (r.totalProfiles, r.firstProfileDate, r.lastProfileDate)) =
    [(some 1, some 0, some 0)] := by
  rfl

/-- C10: when structural validation passes and the parser succeeds with zero
accepted profiles, `ingest_file` marks the file failed with the error message
and writes nothing to the store. -/
theorem ingest_file_rejects_empty_profiles (cfg : IngestionConfig)
    (fileValidation : Bool × List String) (parseResult : FileResult) (dryRun : Bool)
    (filePath : String) (now : ℚ) (db : Db)
    (hv : fileValidation.1 = true) (hs : parseResult.success = true)
    (hp : parseResult.profiles = []) :
    ingestFile cfg fileValidation parseResult dryRun filePath now db =
      ({ parseResult with
          errors := parseResult.errors ++ ["No valid profiles found in file"]
          success := false }, db) := by
  simp [ingestFile, hv, hs, hp]

/-- Default-style configuration with a concrete validation date window. -/
def cfgBase : IngestionConfig :=
  { validation := { minDate := 0, maxDate := 100 } }

/-- A parser success carrying zero accepted profiles. -/
def parseResultC10 : FileResult :=
  { success := true }

/-- Witness for C10 at a concrete input. -/
theorem ingest_file_rejects_empty_profiles_witness :
    ingestFile cfgBase (true, []) parseResultC10 false "argo/E.nc" 3 {} =
      ({ parseResultC10 with
          errors := parseResultC10.errors ++ ["No valid profiles found in file"]
          success := false }, ({} : Db)) :=
  ingest_file_rejects_empty_profiles cfgBase (true, []) parseResultC10 false
    "argo/E.nc" 3 {} rfl rfl rfl

/-- A valid single-level profile (pressure 10 dbar, temperature 21 °C). -/
def profileC2 : ParsedProfile :=
  { floatId := "F2", cycleNumber := 1, profileId := "F2_1", dataMode := "R",
    latitude := 10, longitude := 20, dateTime := 5,
    pressure := some [some 10], pressureQc := some ["1"],
    temperature := some [some 21], temperatureQc := some ["1"] }

/-- C2: ingesting a valid file with one measurement (not dry-run) fails
already on the first run: the measurement upsert names the conflict target
(profile_id, pressure), but `argo_measurements` has no unique constraint on
those columns, so the statement is rejected, the savepoint rolls back and the
file is marked failed — not logged as success with an unchanged row count. -/
theorem measurement_upsert_lacks_unique_arbiter :
    (ingestFile cfgBase (true, []) (parseFile cfgBase [] [some profileC2]) false
      "argo/C.nc" 7 {}).1.success = false ∧
    (ingestFile cfgBase (true, []) (parseFile cfgBase [] [some profileC2]) false
      "argo/C.nc" 7 {}).1.errors =
      ["Database error for argo/C.nc: " ++ missingArbiterError] ∧
    (ingestFile cfgBase (true, []) (parseFile cfgBase [] [some profileC2]) false
      "argo/C.nc" 7 {}).2 = ({} : Db) := by
  refine ⟨rfl, rfl, rfl⟩

/-- C6: on a float-id conflict the upsert maps the matching row through the
`set_` clause only: creation-time metadata (platform number, project, PI,
institution, deployment date, first profile date, last position) is left
unchanged, while last contact date, profile count, status and last profile
date are refreshed from the excluded row (whose `last_profile_date`, absent
from the VALUES clause, is NULL). -/
theorem float_upsert_preserves_creation_metadata (v : FloatInsert)
    (table : List FloatRow) (r : FloatRow) (hmem : r ∈ table)
    (hid : r.floatId = v.floatId) :
    applyFloatConflictUpdate (insertedFloatRow v) r ∈ upsertFloatValues table v ∧
    ((applyFloatConflictUpdate (insertedFloatRow v) r).floatId = r.floatId ∧
     (applyFloatConflictUpdate (insertedFloatRow v) r).platformNumber = r.platformNumber ∧
     (applyFloatConflictUpdate (insertedFloatRow v) r).projectName = r.projectName ∧
     (applyFloatConflictUpdate (insertedFloatRow v) r).piName = r.piName ∧
     (applyFloatConflictUpdate (insertedFloatRow v) r).institution = r.institution ∧
     (applyFloatConflictUpdate (insertedFloatRow v) r).deploymentDate = r.deploymentDate ∧
     (applyFloatConflictUpdate (insertedFloatRow v) r).firstProfileDate = r.firstProfileDate ∧
     (applyFloatConflictUpdate (insertedFloatRow v) r).lastLatitude = r.lastLatitude ∧
     (applyFloatConflictUpdate (insertedFloatRow v) r).lastLongitude = r.lastLongitude) ∧
    ((applyFloatConflictUpdate (insertedFloatRow v) r).lastContactDate = v.lastContactDate ∧
     (applyFloatConflictUpdate (insertedFloatRow v) r).totalProfiles = v.totalProfiles ∧
     (applyFloatConflictUpdate (insertedFloatRow v) r).status = v.status ∧
     (applyFloatConflictUpdate (insertedFloatRow v) r).lastProfileDate = none) := by
  refine ⟨?_, ⟨rfl, rfl, rfl, rfl, rfl, rfl, rfl, rfl, rfl⟩, rfl, rfl, rfl, rfl⟩
  have hany : table.any (fun r2 => r2.floatId == v.floatId) = true := by
    rw [List.any_eq_true]
    exact ⟨r, hmem, by rw [hid, beq_self_eq_true]⟩
  unfold upsertFloatValues
  rw [if_pos hany]
  refine List.mem_map.mpr ⟨r, hmem, ?_⟩
  rw [hid, beq_self_eq_true]
  simp

/-- An existing float row with all metadata populated. -/
def floatRowC6 : FloatRow :=
  { floatId := "F9", platformNumber := some "P", projectName := some "Proj",
    piName := some "PI", institution := some "Inst", status := some "active",
    deploymentDate := some 1, lastContactDate := some 2, lastLatitude := some 3,
    lastLongitude := some 4, totalProfiles := some 5, firstProfileDate := some 1,
    lastProfileDate := some 2 }

/-- A conflicting insert for the same float id. -/
def floatInsertC6 : FloatInsert :=
  { floatId := "F9", platformNumber := some "P2", projectName := some "Proj2",
    piName := some "PI2", status := some "active", deploymentDate := some 9,
    lastContactDate := some 9, totalProfiles := some 6 }

/-- Witness for C6 at a concrete conflicting row. -/
theorem float_upsert_preserves_creation_metadata_witness :
    applyFloatConflictUpdate (insertedFloatRow floatInsertC6) floatRowC6 ∈
      upsertFloatValues [floatRowC6] floatInsertC6 ∧
    (applyFloatConflictUpdate (insertedFloatRow floatInsertC6) floatRowC6).firstProfileDate =
      floatRowC6.firstProfileDate :=
  ⟨(float_upsert_preserves_creation_metadata floatInsertC6 [floatRowC6] floatRowC6
      (List.mem_singleton.mpr rfl) rfl).1,
   (float_upsert_preserves_creation_metadata floatInsertC6 [floatRowC6] floatRowC6
      (List.mem_singleton.mpr rfl) rfl).2.1.2.2.2.2.2.1⟩

/-- The measurement produced for a level before the `_has_valid_data` filter. -/
def levelCandidate (p : ParsedProfile) (i : ℕ) (pr : ℚ) : Measurement :=
  addOptionalMeasurements p i (addSalinityData p i (addTemperatureData p i
    { profileId := p.profileId
      pressure := some pr
      depth := some (pressureToDepth pr)
      pressureQc := levelQc p.pressureQc i }))

lemma levelCandidate_pressure (p : ParsedProfile) (i : ℕ) (pr : ℚ) :
    (levelCandidate p i pr).pressure = some pr := by
  simp [levelCandidate, addTemperatureData, addSalinityData, addOptionalMeasurements]

lemma levelCandidate_field (p : ParsedProfile) (i : ℕ) (pr : ℚ) (f : SciField) :
    measurementField f (levelCandidate p i pr) = profileFieldAt f p i := by
  cases f <;>
    (simp [levelCandidate, measurementField, profileFieldAt, addTemperatureData,
      addSalinityData, addOptionalMeasurements]
     split <;> simp_all)

lemma levelCandidate_hasValid (p : ParsedProfile) (i : ℕ) (pr : ℚ) :
    hasValidData (levelCandidate p i pr) =
      ((profileFieldAt .temperature p i).isSome ||
        (profileFieldAt .temperatureAdjusted p i).isSome ||
        ((profileFieldAt .salinity p i).isSome ||
          (profileFieldAt .salinityAdjusted p i).isSome) ||
        (profileFieldAt .oxygen p i).isSome ||
        (profileFieldAt .chlorophyll p i).isSome) := by
  rw [hasValidData, levelCandidate_pressure]
  rw [show (levelCandidate p i pr).temperature = profileFieldAt .temperature p i from
    levelCandidate_field p i pr .temperature]
  rw [show (levelCandidate p i pr).temperatureAdjusted =
      profileFieldAt .temperatureAdjusted p i from
    levelCandidate_field p i pr .temperatureAdjusted]
  rw [show (levelCandidate p i pr).salinity = profileFieldAt .salinity p i from
    levelCandidate_field p i pr .salinity]
  rw [show (levelCandidate p i pr).salinityAdjusted =
      profileFieldAt .salinityAdjusted p i from
    levelCandidate_field p i pr .salinityAdjusted]
  rw [show (levelCandidate p i pr).oxygen = profileFieldAt .oxygen p i from
    levelCandidate_field p i pr .oxygen]
  rw [show (levelCandidate p i pr).chlorophyllA = profileFieldAt .chlorophyll p i from
    levelCandidate_field p i pr .chlorophyll]

lemma buildLevelMeasurement_eq (p : ParsedProfile) (i : ℕ) (pr : ℚ)
    (hpr : levelVal p.pressure i = some pr) :
    buildLevelMeasurement p i =
      if hasValidData (levelCandidate p i pr) then some (levelCandidate p i pr)
      else none := by
  simp only [buildLevelMeasurement, hpr, levelCandidate]

lemma mem_createMeasurementModels_of_build (p : ParsedProfile) (i : ℕ) (m : Measurement)
    (hm : buildLevelMeasurement p i = some m) : m ∈ createMeasurementModels p := by
  cases hpp : p.pressure with
  | none => simp [buildLevelMeasurement, levelVal, hpp] at hm
  | some ps =>
    have hi : i < ps.length := by
      by_contra hge
      have hnone : ps[i]? = none := List.getElem?_eq_none (by omega)
      simp [buildLevelMeasurement, levelVal, hpp, hnone] at hm
    simp only [createMeasurementModels, hpp]
    exact List.mem_filterMap.mpr ⟨i, List.mem_range.mpr hi, hm⟩

/-- C4: per pressure level of an accepted profile — a level with non-finite
pressure yields no measurement; a level whose only finite value is pressure is
discarded by `_has_valid_data`; a level with finite pressure and exactly one
finite scientific field yields a measurement retained in the mapped list with
every other scientific field null. -/
theorem measurement_level_retention (p : ParsedProfile) (i : ℕ) :
    (levelVal p.pressure i = none → buildLevelMeasurement p i = none) ∧
    ((∀ f : SciField, profileFieldAt f p i = none) →
      buildLevelMeasurement p i = none) ∧
    (∀ (f : SciField) (v pr : ℚ),
      levelVal p.pressure i = some pr →
      profileFieldAt f p i = some v →
      (∀ g : SciField, g ≠ f → profileFieldAt g p i = none) →
      ∃ m, buildLevelMeasurement p i = some m ∧ m ∈ createMeasurementModels p ∧
        m.pressure = some pr ∧ measurementField f m = some v ∧
        ∀ g : SciField, g ≠ f → measurementField g m = none) := by
  refine ⟨fun h => by simp [buildLevelMeasurement, h], ?_, ?_⟩
  · intro hall
    cases hp : levelVal p.pressure i with
    | none => simp [buildLevelMeasurement, hp]
    | some pr =>
      rw [buildLevelMeasurement_eq p i pr hp, levelCandidate_hasValid]
      simp [hall .temperature, hall .temperatureAdjusted, hall .salinity,
        hall .salinityAdjusted, hall .oxygen, hall .chlorophyll]
  · intro f v pr hpr hf hothers
    have hvalid : hasValidData (levelCandidate p i pr) = true := by
      rw [levelCandidate_hasValid]
      cases f <;> simp [hf]
    have hb : buildLevelMeasurement p i = some (levelCandidate p i pr) := by
      rw [buildLevelMeasurement_eq p i pr hpr, hvalid]
      simp
    refine ⟨levelCandidate p i pr, hb,
      mem_createMeasurementModels_of_build p i _ hb,
      levelCandidate_pressure p i pr, ?_, ?_⟩
    · rw [levelCandidate_field p i pr f, hf]
    · intro g hg
      rw [levelCandidate_field p i pr g, hothers g hg]

/-- A three-level profile: level 0 has pressure and temperature, level 1 has
only pressure, level 2 has NaN pressure. -/
def profileC4 : ParsedProfile :=
  { floatId := "F4", cycleNumber := 1, profileId := "F4_1", dataMode := "R",
    latitude := 0, longitude := 0, dateTime := 1,
    pressure := some [some 10, some 20, none],
    temperature := some [some 5, none, none],
    temperatureQc := some ["1", "1", "1"] }

/-- Witness for C4 at the three levels of `profileC4`. -/
theorem measurement_level_retention_witness :
    buildLevelMeasurement profileC4 2 = none ∧
    buildLevelMeasurement profileC4 1 = none ∧
    ∃ m, buildLevelMeasurement profileC4 0 = some m ∧
      m ∈ createMeasurementModels profileC4 ∧
      m.pressure = some 10 ∧ measurementField .temperature m = some 5 ∧
      ∀ g : SciField, g ≠ .temperature → measurementField g m = none :=
  ⟨(measurement_level_retention profileC4 2).1 rfl,
   (measurement_level_retention profileC4 1).2.1 (fun f => by cases f <;> rfl),
   (measurement_level_retention profileC4 0).2.2 .temperature 5 10 rfl rfl
     (fun g hg => by
       cases g with
       | temperature => exact absurd rfl hg
       | temperatureAdjusted => rfl
       | salinity => rfl
       | salinityAdjusted => rfl
       | oxygen => rfl
       | chlorophyll => rfl)⟩

lemma parseStep_profiles_prefix (cfg : IngestionConfig) (idx : ℕ) (st : ParseState)
    (slot : Option ParsedProfile) :
    ∃ t, (parseStep cfg idx st slot).1.profiles = st.profiles ++ t := by
  cases slot with
  | none => exact ⟨[], by simp [parseStep]⟩
  | some p =>
    cases hv : validateProfile cfg p with
    | accepted warns => exact ⟨[p], by simp [parseStep, hv]⟩
    | rejectedSilent => exact ⟨[], by simp [parseStep, hv]⟩
    | rejectedErrors errs => exact ⟨[], by simp [parseStep, hv]⟩
    | raised msg => exact ⟨[], by simp [parseStep, hv]⟩

lemma parseProfilesGo_profiles_prefix (cfg : IngestionConfig) :
    ∀ (slots : List (Option ParsedProfile)) (idx : ℕ) (st : ParseState),
      ∃ t, (parseProfilesGo cfg idx st slots).profiles = st.profiles ++ t := by
  intro slots
  induction slots with
  | nil => exact fun idx st => ⟨[], by simp [parseProfilesGo]⟩
  | cons slot rest ih =>
    intro idx st
    rcases hps : parseStep cfg idx st slot with ⟨st2, cont⟩
    obtain ⟨t1, ht1⟩ := parseStep_profiles_prefix cfg idx st slot
    rw [hps] at ht1
    cases cont with
    | true =>
      obtain ⟨t2, ht2⟩ := ih (idx + 1) st2
      refine ⟨t1 ++ t2, ?_⟩
      simp only [parseProfilesGo, hps, if_true]
      rw [ht2, ht1, List.append_assoc]
    | false =>
      refine ⟨t1, ?_⟩
      simp only [parseProfilesGo, hps]
      simpa using ht1

/-- C5 (amended): a profile slot that fails to decode, or a profile rejected
by a filter, increments only the records-skipped count and scanning continues;
a bound-validation rejection appends its tagged error messages, increments the
skip count, and scanning continues regardless of the error budget; only a
profile that raises an exception both appends an error and stops the scan —
exactly when the error list has reached `max_errors_per_file` — and stopping
still returns the partial results accumulated so far. -/
theorem parse_skip_and_error_budget :
    (∀ (cfg : IngestionConfig) (idx : ℕ) (st : ParseState),
      parseStep cfg idx st none =
        ({ st with recordsSkipped := st.recordsSkipped + 1 }, true)) ∧
    (∀ (cfg : IngestionConfig) (idx : ℕ) (st : ParseState) (p : ParsedProfile),
      validateProfile cfg p = .rejectedSilent →
      parseStep cfg idx st (some p) =
        ({ st with recordsSkipped := st.recordsSkipped + 1 }, true)) ∧
    (∀ (cfg : IngestionConfig) (idx : ℕ) (st : ParseState) (p : ParsedProfile)
        (errs : List String),
      validateProfile cfg p = .rejectedErrors errs →
      parseStep cfg idx st (some p) =
        ({ st with
            errors := st.errors ++ tagProfileMsgs p.profileId errs
            recordsSkipped := st.recordsSkipped + 1 }, true)) ∧
    (∀ (cfg : IngestionConfig) (idx : ℕ) (st : ParseState) (p : ParsedProfile)
        (msg : String),
      validateProfile cfg p = .raised msg →
      (parseStep cfg idx st (some p)).1.recordsSkipped = st.recordsSkipped + 1 ∧
      (parseStep cfg idx st (some p)).1.errors.length = st.errors.length + 1 ∧
      ((parseStep cfg idx st (some p)).2 = true ↔
        st.errors.length + 1 < cfg.maxErrorsPerFile)) ∧
    (∀ (cfg : IngestionConfig) (idx : ℕ) (st : ParseState)
        (slots : List (Option ParsedProfile)),
      ∃ t, (parseProfilesGo cfg idx st slots).profiles = st.profiles ++ t) := by
  refine ⟨fun cfg idx st => rfl, ?_, ?_, ?_,
    fun cfg idx st slots => parseProfilesGo_profiles_prefix cfg slots idx st⟩
  · intro cfg idx st p hv
    simp [parseStep, hv]
  · intro cfg idx st p errs hv
    simp [parseStep, hv]
  · intro cfg idx st p msg hv
    refine ⟨by simp [parseStep, hv], by simp [parseStep, hv], ?_⟩
    simp [parseStep, hv]

/-- Configuration with an error budget of one and only real-time data mode
accepted. -/
def cfgC5 : IngestionConfig :=
  { maxErrorsPerFile := 1, dataModes := [.realTime],
    validation := { minDate := 0, maxDate := 100 } }

/-- Rejected with a recorded error: latitude 95 is out of bounds. -/
def profileBadLat1 : ParsedProfile :=
  { floatId := "F5", cycleNumber := 2, profileId := "F5_2", dataMode := "R",
    latitude := 95, longitude := 0, dateTime := 10 }

/-- A second out-of-bounds profile (latitude -95). -/
def profileBadLat2 : ParsedProfile :=
  { floatId := "F5", cycleNumber := 3, profileId := "F5_3", dataMode := "R",
    latitude := -95, longitude := 0, dateTime := 10 }

/-- Rejected silently: delayed-mode data while only real-time is accepted. -/
def profileModeD : ParsedProfile :=
  { floatId := "F5", cycleNumber := 1, profileId := "F5_1", dataMode := "D",
    latitude := 0, longitude := 0, dateTime := 10 }

/-- A profile that passes validation under `cfgC5`. -/
def profileGoodC5 : ParsedProfile :=
  { floatId := "F5", cycleNumber := 4, profileId := "F5_4", dataMode := "R",
    latitude := 1, longitude := 2, dateTime := 10 }

/-- The file's profile slots: two bound-violations, one filter rejection, one
good profile. -/
def slotsC5 : List (Option ParsedProfile) :=
  [some profileBadLat1, some profileBadLat2, some profileModeD, some profileGoodC5]

/-- Counterexample to C5 as stated: with an error budget of one, two recorded
errors (budget exceeded) do not stop the scan — the last profile is still
accepted — and the third rejection increments only the skip count (three
skips, two errors), so a rejected profile does not always increment the error
count. -/
theorem parse_error_budget_counterexample :
    cfgC5.maxErrorsPerFile = 1 ∧
    (parseProfiles cfgC5 slotsC5).errors.length = 2 ∧
    (parseProfiles cfgC5 slotsC5).recordsSkipped = 3 ∧
    (parseProfiles cfgC5 slotsC5).profiles = [profileGoodC5] := by
  refine ⟨rfl, rfl, rfl, rfl⟩

/-- Witness for C5 at a concrete filter rejection. -/
theorem parse_skip_and_error_budget_witness :
    parseStep cfgC5 0 {} (some profileModeD) =
      ({ recordsSkipped := 1 }, true) :=
  parse_skip_and_error_budget.2.1 cfgC5 0 {} profileModeD rfl

lemma executeWithRetryGo_all_fail (E A : Type) (retryDelay : ℚ) (expo : Bool)
    (op : ℕ → Except E A) :
    ∀ (remaining attempt : ℕ),
      (∀ k, attempt ≤ k → k ≤ attempt + remaining → ∃ e, op k = .error e) →
      executeWithRetryGo retryDelay expo op attempt remaining =
        (op (attempt + remaining),
          (List.range' attempt remaining).map (retryDelayFor retryDelay expo)) := by
  intro remaining
  induction remaining with
  | zero => intro attempt h; simp [executeWithRetryGo]
  | succ r ih =>
    intro attempt h
    obtain ⟨e, he⟩ := h attempt le_rfl (by omega)
    have ih2 := ih (attempt + 1) (fun k hk1 hk2 => h k (by omega) (by omega))
    simp only [executeWithRetryGo, he]
    rw [ih2, List.range'_succ, List.map_cons]
    have harith : attempt + 1 + r = attempt + (r + 1) := by omega
    rw [harith]

lemma executeWithRetryGo_first_success (E A : Type) (retryDelay : ℚ) (expo : Bool)
    (op : ℕ → Except E A) :
    ∀ (k remaining attempt : ℕ) (a : A),
      k ≤ remaining →
      op (attempt + k) = .ok a →
      (∀ j, j < k → ∃ e, op (attempt + j) = .error e) →
      executeWithRetryGo retryDelay expo op attempt remaining =
        (.ok a, (List.range' attempt k).map (retryDelayFor retryDelay expo)) := by
  intro k
  induction k with
  | zero =>
    intro remaining attempt a hk hok hfail
    rw [Nat.add_zero] at hok
    cases remaining with
    | zero => simp [executeWithRetryGo, hok]
    | succ r => simp [executeWithRetryGo, hok]
  | succ k ih =>
    intro remaining attempt a hk hok hfail
    obtain ⟨e, he⟩ := hfail 0 (Nat.succ_pos k)
    rw [Nat.add_zero] at he
    cases remaining with
    | zero => omega
    | succ r =>
      have hok2 : op (attempt + 1 + k) = .ok a := by
        rw [show attempt + 1 + k = attempt + (k + 1) from by omega]
        exact hok
      have hfail2 : ∀ j, j < k → ∃ e2, op (attempt + 1 + j) = .error e2 := by
        intro j hj
        rw [show attempt + 1 + j = attempt + (j + 1) from by omega]
        exact hfail (j + 1) (by omega)
      have ih2 := ih r (attempt + 1) a (by omega) hok2 hfail2
      simp only [executeWithRetryGo, he]
      rw [ih2, List.range'_succ, List.map_cons]

/-- C7: `execute_with_retry` on an operation that keeps raising
persistence-layer exceptions sleeps the configured backoff between attempts
(`retry_delay * 2 ** attempt` with exponential backoff, the fixed
`retry_delay` otherwise), retries up to `max_retries`, and re-raises the last
attempt's outcome; an operation succeeding at attempt k returns that result
immediately after exactly k sleeps. -/
theorem execute_with_retry_spec (E A : Type) (maxRetries : ℕ) (retryDelay : ℚ)
    (expo : Bool) (op : ℕ → Except E A) :
    ((∀ k, k ≤ maxRetries → ∃ e, op k = .error e) →
      executeWithRetry maxRetries retryDelay expo op =
        (op maxRetries, (List.range maxRetries).map (retryDelayFor retryDelay expo))) ∧
    (∀ (k : ℕ) (a : A), k ≤ maxRetries → op k = .ok a →
      (∀ j, j < k → ∃ e, op j = .error e) →
      executeWithRetry maxRetries retryDelay expo op =
        (.ok a, (List.range k).map (retryDelayFor retryDelay expo))) := by
  constructor
  · intro hfail
    have h := executeWithRetryGo_all_fail E A retryDelay expo op maxRetries 0
      (fun k hk1 hk2 => hfail k (by omega))
    rw [executeWithRetry, h, Nat.zero_add, List.range_eq_range']
  · intro k a hk hok hfail
    have h := executeWithRetryGo_first_success E A retryDelay expo op k maxRetries 0 a hk
      (by rw [Nat.zero_add]; exact hok)
      (fun j hj => by rw [Nat.zero_add]; exact hfail j hj)
    rw [executeWithRetry, h, List.range_eq_range']

/-- An operation that fails once with a transient error, then succeeds. -/
def opRetryC7 : ℕ → Except String ℕ :=
  fun k => if k = 0 then .error "deadlock detected" else .ok 7

/-- An operation that always fails. -/
def opFailC7 : ℕ → Except String ℕ :=
  fun _ => .error "connection reset"

/-- Witness for C7: one transient failure costs one sleep of the base delay
and then returns the result; a persistent failure exhausts the budget and
re-raises. -/
theorem execute_with_retry_spec_witness :
    executeWithRetry 2 1 true opRetryC7 = (.ok 7, [1]) ∧
    executeWithRetry 1 1 false opFailC7 = (.error "connection reset", [1]) := by
  constructor
  · have h := (execute_with_retry_spec String ℕ 2 1 true opRetryC7).2 1 7 (by omega) rfl
      (fun j hj => ⟨"deadlock detected", by
        have hj0 : j = 0 := by omega
        rw [hj0]
        rfl⟩)
    rw [h]
    norm_num [retryDelayFor, List.range_succ]
  · have h := (execute_with_retry_spec String ℕ 1 1 false opFailC7).1
      (fun k hk => ⟨"connection reset", rfl⟩)
    rw [h]
    norm_num [retryDelayFor, List.range_succ, opFailC7]

end ArgoIngestion
